import Mathlib

/-!
Verification of the request translation and execution gateway of the
Bugcrowd MCP server (`openai_mcp_server.py`).

The Python source is shallowly embedded: each Python function becomes a
Lean definition over explicit state / environment arguments.  Python
exceptions become `Except` values; the exception classes the gateway
raises (`ValueError` for malformed client input, `RuntimeError` for
everything the HTTP layer classifies, and the uncaught `TypeError` of a
keyword-expansion collision) become the constructors of `GatewayError`.
The HTTP transport is an oracle `respond : Request → CallResult`
supplied by the environment; the second component of a gateway result
records the single outbound request, `none` meaning that no network
call was made.
-/

namespace Bugcrowd

/-- Characters Python's `str.strip()` removes (ASCII whitespace). -/
def isPySpace (c : Char) : Bool :=
  c = ' ' || c = '\t' || c = '\n' || c = '\r' || c = Char.ofNat 11 || c = Char.ofNat 12

/-- `str.strip()` on a character list: drop ASCII whitespace at both ends. -/
def pyStripL (l : List Char) : List Char :=
  ((l.dropWhile isPySpace).reverse.dropWhile isPySpace).reverse

/-- `str.strip()` on a string. -/
def pyStrip (s : String) : String :=
  String.mk (pyStripL s.data)

/-- Value of a hexadecimal digit, as used by percent decoding. -/
def hexVal (c : Char) : Option Nat :=
  if '0' ≤ c ∧ c ≤ '9' then some (c.toNat - '0'.toNat)
  else if 'a' ≤ c ∧ c ≤ 'f' then some (c.toNat - 'a'.toNat + 10)
  else if 'A' ≤ c ∧ c ≤ 'F' then some (c.toNat - 'A'.toNat + 10)
  else none

/-- `urllib.parse.unquote_plus` on a character list: `+` becomes a space,
a `%` followed by two hex digits becomes the character with that code,
and an invalid escape is kept verbatim.  (CPython decodes runs of
escapes as UTF-8; for escape values below `0x80` — the only ones the
claims exercise — this model agrees with CPython exactly.) -/
def unquotePlusGo : Nat → List Char → List Char
  | _, [] => []
  | 0, l => l
  | fuel + 1, c :: rest =>
    if c = '+' then ' ' :: unquotePlusGo fuel rest
    else if c = '%' then
      match rest with
      | h1 :: h2 :: rest2 =>
        match hexVal h1, hexVal h2 with
        | some a, some b => Char.ofNat (16 * a + b) :: unquotePlusGo fuel rest2
        | _, _ => '%' :: unquotePlusGo fuel (h1 :: h2 :: rest2)
      | r => '%' :: unquotePlusGo fuel r
    else c :: unquotePlusGo fuel rest

/-- Each step of `unquotePlusGo` consumes at least one character, so a
fuel equal to the input length is never exhausted. -/
def unquotePlusL (l : List Char) : List Char :=
  unquotePlusGo l.length l

/-- Python `str.split(sep)` for a one-character separator: keeps empty
pieces, and the split of the empty string is `[""]`. -/
def pySplitCh (sep : Char) : List Char → List (List Char)
  | [] => [[]]
  | c :: rest =>
    if c = sep then [] :: pySplitCh sep rest
    else
      match pySplitCh sep rest with
      | [] => [[c]]
      | h :: t => (c :: h) :: t

/-- Characters admitted by the key pattern `[a-zA-Z0-9_\[\].]` of
`_parse_query_params` (an `re` character class over `str` matches ASCII
ranges only). -/
def isKeyChar (c : Char) : Bool :=
  ('a' ≤ c && c ≤ 'z') || ('A' ≤ c && c ≤ 'Z') || ('0' ≤ c && c ≤ '9') ||
  c = '_' || c = '[' || c = ']' || c = '.'

/-- Characters admitted by the resource-id pattern `[a-zA-Z0-9_-]` of
`_validate_resource_id`. -/
def isIdChar (c : Char) : Bool :=
  ('a' ≤ c && c ≤ 'z') || ('A' ≤ c && c ≤ 'Z') || ('0' ≤ c && c ≤ '9') ||
  c = '_' || c = '-'

/-- Python `re.match(r'^[cs]+$', s)`: a non-empty run of class
characters followed by the end of the string, where `$` also matches
just before one final newline.  Because the class never contains a
newline, the greedy `takeWhile` run is exact. -/
def pyFullMatchPlus (charset : Char → Bool) (l : List Char) : Bool :=
  let run := l.takeWhile charset
  let rest := l.drop run.length
  !run.isEmpty && (rest.isEmpty || rest == ['\n'])

/-- The exception classes the gateway raises: `ValueError` (malformed
client-supplied input), `RuntimeError` (configuration and HTTP-layer
failures), and the uncaught `TypeError` CPython raises when a parsed
query key collides with a bound parameter of `bugcrowd_request` during
`**parsed_params` expansion. -/
inductive GatewayError where
  | valueError (msg : String)
  | runtimeError (msg : String)
  | typeError (msg : String)
deriving DecidableEq, Repr

/-- `str(e)` of a raised gateway exception. -/
def GatewayError.message : GatewayError → String
  | .valueError msg => msg
  | .runtimeError msg => msg
  | .typeError msg => msg

/-- Python `dict` assignment `d[k] = v`: overwrite in place if the key
is present, else append. -/
def dictInsert (d : List (String × String)) (k v : String) :
    List (String × String) :=
  if d.any (fun kv => kv.1 = k) then
    d.map (fun kv => if kv.1 = k then (k, v) else kv)
  else d ++ [(k, v)]

/-- Python `d.get(k)` on a string-to-string dict. -/
def dictGet (d : List (String × String)) (k : String) : Option String :=
  (d.find? (fun kv => kv.1 = k)).map (fun kv => kv.2)

/-- One candidate pair of `_parse_query_params`: the decoded key, after
`param.split("=", 1)` and `key.strip()`. -/
def decodedKey (p : List Char) : List Char :=
  unquotePlusL (pyStripL (p.takeWhile (fun c => c ≠ '=')))

/-- One candidate pair of `_parse_query_params`: the decoded value. -/
def decodedVal (p : List Char) : List Char :=
  unquotePlusL (pyStripL (p.drop ((p.takeWhile (fun c => c ≠ '=')).length + 1)))

/-- The `for param in query_params.split("&")` loop body of
`_parse_query_params`: pairs without `=` are skipped, a decoded key
failing the pattern raises `ValueError(f"Invalid parameter name: {key}")`,
and a passing pair is assigned into the dict (later keys overwrite). -/
def parseLoop : List (List Char) → List (String × String) →
    Except String (List (String × String))
  | [], acc => .ok acc
  | p :: rest, acc =>
    if p.any (fun c => c = '=') then
      let key := String.mk (decodedKey p)
      let val := String.mk (decodedVal p)
      if pyFullMatchPlus isKeyChar (decodedKey p) then
        parseLoop rest (dictInsert acc key val)
      else
        .error ("Invalid parameter name: " ++ key)
    else
      parseLoop rest acc

/-- `_parse_query_params`: whitespace-only input yields the empty dict;
otherwise the loop runs over `query_params.split("&")`, and any
exception it raises is replaced by
`ValueError(f"Malformed query parameters: {query_params}")`. -/
def _parse_query_params (query_params : String) :
    Except String (List (String × String)) :=
  if pyStrip query_params = "" then .ok []
  else
    match parseLoop (pySplitCh '&' query_params.data) [] with
    | .ok params => .ok params
    | .error _ => .error ("Malformed query parameters: " ++ query_params)

/-- `_validate_resource_id`: empty or whitespace-only ids are rejected,
the id is stripped, and the stripped id must match `^[a-zA-Z0-9_-]+$`. -/
def _validate_resource_id (resource_id : String) : Except String String :=
  if resource_id = "" ∨ pyStrip resource_id = "" then
    .error "Resource ID cannot be empty"
  else
    let r := pyStrip resource_id
    if pyFullMatchPlus isIdChar r.data then .ok r
    else .error ("Invalid resource ID format: " ++ r)

/-- Module-level configuration constants. -/
def BUGCROWD_API_BASE : String := "https://api.bugcrowd.com"

def BUGCROWD_API_VERSION : String := "2025-04-23"

/-- The cached `_api_credentials` value: the username/password pair read
from the environment. -/
structure Credentials where
  username : String
  password : String
deriving DecidableEq, Repr

/-- Python truthiness of an `os.getenv` result: `None` and `""` are
falsy. -/
def truthyEnv : Option String → Bool
  | none => false
  | some s => s ≠ ""

/-- `_load_api_credentials`: returns the cached pair when present;
otherwise reads both environment variables and raises a `RuntimeError`
if either is unset or empty. -/
def _load_api_credentials (env_username env_password : Option String)
    (cache : Option Credentials) : Except String Credentials :=
  match cache with
  | some c => .ok c
  | none =>
    if truthyEnv env_username ∧ truthyEnv env_password then
      .ok ⟨env_username.getD "", env_password.getD ""⟩
    else
      .error ("BUGCROWD_API_USERNAME and BUGCROWD_API_PASSWORD must be set in environment variables. " ++
        "Please configure your Bugcrowd API credentials.")

/-- A value of the dynamically typed JSON bodies the tools accept. -/
inductive PyValue where
  | str (s : String)
  | int (n : Int)
  | bool (b : Bool)
  | pyNone
  | list (l : List PyValue)
  | dict (d : List (String × PyValue))

/-- Python truthiness of a JSON-ish value (`not data.get(field)`). -/
def PyValue.truthy : PyValue → Bool
  | .str s => s ≠ ""
  | .int n => n ≠ 0
  | .bool b => b
  | .pyNone => false
  | .list l => !l.isEmpty
  | .dict d => !d.isEmpty

/-- `data.get(field)` on a JSON object body. -/
def pyGet (d : List (String × PyValue)) (k : String) : Option PyValue :=
  (d.find? (fun kv => kv.1 = k)).map (fun kv => kv.2)

/-- The single outbound HTTP request `client.request(...)` is invoked
with.  The second component of a gateway result is `some` of this
record exactly when the HTTP call was reached. -/
structure Request where
  method : String
  url : String
  headers : List (String × String)
  params : List (String × String)
  jsonData : Option (List (String × PyValue))

/-- What `client.request` produced: a response (with its status, the
outcome of `response.json()`, and its text), an `httpx.RequestError`
(transport failure), or any other exception escaping the call. -/
inductive CallResult where
  | response (status : Nat) (jsonBody : Except String String) (text : String)
  | requestError (msg : String)
  | otherFailure (msg : String)

/-- The environment a gateway call runs in: the two configuration
variables, the cached credentials, and the HTTP transport oracle. -/
structure Env where
  username : Option String
  password : Option String
  cache : Option Credentials
  respond : Request → CallResult

/-- The fixed headers of `bugcrowd_request`, built from the loaded
credentials. -/
def buildHeaders (c : Credentials) : List (String × String) :=
  [("Accept", "application/vnd.bugcrowd+json"),
   ("Authorization", "Token " ++ c.username ++ ":" ++ c.password),
   ("Bugcrowd-Version", BUGCROWD_API_VERSION),
   ("User-Agent", "Bugcrowd-MCP-Server/1.0.0")]

/-- The `clean_params` dict comprehension of `bugcrowd_request`: drop
the key `"query_params"` and entries whose value is `None`. -/
def cleanParams (query_params : List (String × Option String)) :
    List (String × String) :=
  query_params.filterMap (fun kv =>
    if kv.1 = "query_params" then none
    else kv.2.map (fun v => (kv.1, v)))

/-- The outcome classification of `bugcrowd_request`:
`response.raise_for_status()` returns only for a success (2xx) status —
httpx raises `httpx.HTTPStatusError` for every other status that
surfaces (redirects are mostly auto-followed, but e.g. 300 or 304 can
surface) — and the status handler maps 401/403/404/429 to specific
`RuntimeError`s and every other non-2xx to the status-coded generic
one; a failing `response.json()` on a 2xx, like every other unexpected
exception, falls into the generic `except Exception` handler;
`httpx.RequestError` becomes the network error. -/
def classifyOutcome (endpoint : String) (res : CallResult) :
    Except String String :=
  match res with
  | .response status jsonBody _text =>
    if 200 ≤ status ∧ status < 300 then
      match jsonBody with
      | .ok body => .ok body
      | .error m => .error ("Unexpected error during API request: " ++ m)
    else
      if status = 401 then
        .error "Authentication failed. Please check your Bugcrowd API credentials."
      else if status = 403 then
        .error "Access forbidden. You may not have permission to access this resource."
      else if status = 404 then
        .error ("Resource not found: " ++ endpoint)
      else if status = 429 then
        .error "Rate limit exceeded. Please try again later."
      else
        .error ("API request failed with status " ++ toString status)
  | .requestError _m => .error "Network error: Unable to connect to Bugcrowd API"
  | .otherFailure m => .error ("Unexpected error during API request: " ++ m)

/-- `bugcrowd_request`: load credentials (a `RuntimeError` raised there
is caught by the function's own `except Exception` handler and
re-wrapped), build the URL, headers and cleaned parameters, issue the
one HTTP call, and classify its outcome.  The second component records
the issued request, `none` when no HTTP call was made. -/
def bugcrowd_request (method endpoint : String)
    (json_data : Option (List (String × PyValue)))
    (query_params : List (String × Option String)) (env : Env) :
    Except GatewayError String × Option Request :=
  match _load_api_credentials env.username env.password env.cache with
  | .error m =>
    (.error (.runtimeError ("Unexpected error during API request: " ++ m)), none)
  | .ok credentials =>
    let req : Request :=
      { method := method
        url := BUGCROWD_API_BASE ++ endpoint
        headers := buildHeaders credentials
        params := cleanParams query_params
        jsonData := json_data }
    match classifyOutcome endpoint (env.respond req) with
    | .ok body => (.ok body, some req)
    | .error m => (.error (.runtimeError m), some req)

/-- Parsed query keys that collide with the bound parameters of
`bugcrowd_request(method, endpoint, json_data=None, **query_params)`
during `**parsed_params` expansion.  (The `**query_params` catch-all
name itself never collides: a parsed key `query_params` simply lands in
the kwargs dict.) -/
def collidesWithParam (k : String) : Bool :=
  k = "method" || k = "endpoint" || k = "json_data"

/-- `_make_api_request`: compose the endpoint (a truthy `resource_id`
is validated and appended; `None` and `""` are falsy and leave the
endpoint unchanged), parse the query string, and delegate to
`bugcrowd_request` via `**parsed_params` expansion.  A `ValueError`
from validation or parsing propagates before any HTTP call; a parsed
key colliding with a bound parameter name makes CPython raise an
uncaught `TypeError` (got multiple values for the argument) at the
call, reported for the first colliding key in dict order, again before
any HTTP call. -/
def _make_api_request (method endpoint : String)
    (resource_id : Option String) (query_params : String)
    (json_data : Option (List (String × PyValue))) (env : Env) :
    Except GatewayError String × Option Request :=
  let composed : Except String String :=
    match resource_id with
    | some rid =>
      if rid = "" then .ok endpoint
      else (_validate_resource_id rid).map (fun v => endpoint ++ "/" ++ v)
    | none => .ok endpoint
  match composed with
  | .error m => (.error (.valueError m), none)
  | .ok full_endpoint =>
    match _parse_query_params query_params with
    | .error m => (.error (.valueError m), none)
    | .ok parsed_params =>
      match parsed_params.find? (fun kv => collidesWithParam kv.1) with
      | some kv =>
        (.error (.typeError
          ("bugcrowd_request() got multiple values for argument " ++ kv.1)), none)
      | none =>
        bugcrowd_request method full_endpoint json_data
          (parsed_params.map (fun kv => (kv.1, some kv.2))) env

/-- The `get_organizations` tool. -/
def get_organizations (query_params : String) (env : Env) :
    Except GatewayError String × Option Request :=
  _make_api_request "GET" "/organizations" none query_params none env

/-- The `get_organization` tool. -/
def get_organization (id : String) (query_params : String) (env : Env) :
    Except GatewayError String × Option Request :=
  _make_api_request "GET" "/organizations" (some id) query_params none env

/-- The `create_submission` tool: reject a falsy (empty) body, then
reject a body whose `title` or `description` is missing or falsy, then
POST. -/
def create_submission (data : List (String × PyValue)) (env : Env) :
    Except GatewayError String × Option Request :=
  if data.isEmpty then
    (.error (.valueError "Submission data must be a non-empty dictionary"), none)
  else
    let required_fields := ["title", "description"]
    let missing_fields := required_fields.filter
      (fun field => !((pyGet data field).getD .pyNone).truthy)
    if !missing_fields.isEmpty then
      (.error (.valueError ("Missing required fields: " ++
        String.intercalate ", " missing_fields)), none)
    else
      _make_api_request "POST" "/submissions" none "" (some data) env

/-- The `server_health` tool: probe `/organizations?limit=1` through the
gateway and fold any exception into an "unhealthy" report. -/
def server_health (env : Env) : List (String × String) :=
  match (_make_api_request "GET" "/organizations" none "limit=1" none env).1 with
  | .ok _ =>
    [("status", "healthy"), ("api_connection", "ok"), ("version", "1.0.0"),
     ("bugcrowd_api_version", BUGCROWD_API_VERSION)]
  | .error e =>
    [("status", "unhealthy"), ("api_connection", "error"),
     ("error", e.message), ("version", "1.0.0")]

/-- A concrete environment with valid credentials whose transport
refuses every connection, used to exercise the theorems below. -/
def stubEnv : Env :=
  { username := some "u"
    password := some "p"
    cache := none
    respond := fun _ => .requestError "connection refused" }

/-- The request issued against the organizations collection under
`stubEnv`, for the given cleaned parameters. -/
def reqOrganizations (params : List (String × String)) : Request :=
  { method := "GET"
    url := "https://api.bugcrowd.com/organizations"
    headers := buildHeaders ⟨"u", "p"⟩
    params := params
    jsonData := none }

/-- The credentials `stubEnv` loads on first use. -/
def stubCreds : Credentials := ⟨"u", "p"⟩

/-! ### Helper lemmas -/

lemma string_mk_data (s : String) : String.mk s.data = s := by
  cases s
  rfl

lemma string_mk_eq_empty_iff (l : List Char) : String.mk l = "" ↔ l = [] := by
  constructor
  · intro h
    exact congrArg String.data h
  · intro h
    rw [h]

lemma string_append_ne_empty_left {s : String} (t : String) (h : s ≠ "") :
    s ++ t ≠ "" := by
  intro hc
  apply h
  have hd := congrArg String.data hc
  rw [String.data_append] at hd
  rcases List.append_eq_nil.mp hd with ⟨h1, _⟩
  cases s
  simp_all

lemma dropWhile_eq_self_of_forall {p : Char → Bool} :
    ∀ {l : List Char}, (∀ c ∈ l, p c = false) → l.dropWhile p = l
  | [], _ => rfl
  | c :: rest, h => by
    simp [List.dropWhile_cons, h c (List.mem_cons_self c rest)]

lemma pyStripL_of_no_space {l : List Char} (h : ∀ c ∈ l, isPySpace c = false) :
    pyStripL l = l := by
  unfold pyStripL
  rw [dropWhile_eq_self_of_forall h]
  rw [dropWhile_eq_self_of_forall (fun c hc => h c (List.mem_reverse.mp hc))]
  exact List.reverse_reverse l

lemma pyStripL_eq_nil_iff (l : List Char) :
    pyStripL l = [] ↔ ∀ c ∈ l, isPySpace c = true := by
  unfold pyStripL
  rw [List.reverse_eq_nil_iff, List.dropWhile_eq_nil_iff]
  constructor
  · intro h c hc
    rcases List.mem_append.mp ((List.takeWhile_append_dropWhile (p := isPySpace) (l := l)) ▸ hc) with h1 | h2
    · exact List.mem_takeWhile_imp h1
    · exact h c (List.mem_reverse.mpr h2)
  · intro h c hc
    exact h c (List.dropWhile_sublist _ |>.mem (List.mem_reverse.mp hc))

lemma pyStrip_eq_empty_iff (s : String) :
    pyStrip s = "" ↔ ∀ c ∈ s.data, isPySpace c = true := by
  unfold pyStrip
  rw [string_mk_eq_empty_iff]
  exact pyStripL_eq_nil_iff s.data

lemma unquotePlusGo_of_plain :
    ∀ (fuel : Nat) (l : List Char), (∀ c ∈ l, c ≠ '+' ∧ c ≠ '%') →
      unquotePlusGo fuel l = l
  | fuel, [], _ => by cases fuel <;> rfl
  | 0, _ :: _, _ => rfl
  | fuel + 1, c :: rest, h => by
    have hc := h c (List.mem_cons_self c rest)
    have hrest : ∀ c ∈ rest, c ≠ '+' ∧ c ≠ '%' :=
      fun c hc => h c (List.mem_cons_of_mem _ hc)
    simp only [unquotePlusGo, if_neg hc.1, if_neg hc.2]
    rw [unquotePlusGo_of_plain fuel rest hrest]

lemma unquotePlusL_of_plain {l : List Char} (h : ∀ c ∈ l, c ≠ '+' ∧ c ≠ '%') :
    unquotePlusL l = l :=
  unquotePlusGo_of_plain l.length l h

lemma pySplitCh_ne_nil (sep : Char) : ∀ l : List Char, pySplitCh sep l ≠ []
  | [] => by simp [pySplitCh]
  | c :: rest => by
    simp only [pySplitCh]
    split
    · simp
    · cases h : pySplitCh sep rest <;> simp

lemma pySplitCh_no_sep {sep : Char} :
    ∀ {l : List Char}, (∀ c ∈ l, c ≠ sep) → pySplitCh sep l = [l]
  | [], _ => rfl
  | c :: rest, h => by
    have hc : c ≠ sep := h c (List.mem_cons_self c rest)
    have hrest := pySplitCh_no_sep (fun c hc => h c (List.mem_cons_of_mem _ hc))
    simp only [pySplitCh, if_neg hc, hrest]

lemma pySplitCh_append {sep : Char} :
    ∀ {a : List Char} (b : List Char), (∀ c ∈ a, c ≠ sep) →
      pySplitCh sep (a ++ sep :: b) = a :: pySplitCh sep b
  | [], b, _ => by simp [pySplitCh]
  | c :: a', b, h => by
    have hc : c ≠ sep := h c (List.mem_cons_self c a')
    have ih := pySplitCh_append (a := a') b (fun c hc => h c (List.mem_cons_of_mem _ hc))
    simp only [List.cons_append, pySplitCh, if_neg hc]
    rw [show a'.append (sep :: b) = a' ++ sep :: b from rfl, ih]

lemma takeWhile_append_of_forall {p : Char → Bool} :
    ∀ {a : List Char} (b : List Char), (∀ c ∈ a, p c = true) →
      (a ++ b).takeWhile p = a ++ b.takeWhile p
  | [], b, _ => rfl
  | c :: a', b, h => by
    have hc := h c (List.mem_cons_self c a')
    have ih := takeWhile_append_of_forall (a := a') b
      (fun c hc => h c (List.mem_cons_of_mem _ hc))
    simp [List.cons_append, List.takeWhile_cons, hc, ih]

lemma dictGet_dictInsert_map {d : List (String × String)} {k0 : String}
    (v0 : String) {k : String} (hk : k ≠ k0) :
    dictGet (d.map (fun kv => if kv.1 = k0 then (k0, v0) else kv)) k = dictGet d k := by
  induction d with
  | nil => rfl
  | cons kv d' ih =>
    by_cases h1 : kv.1 = k0
    · simp only [dictGet, List.map_cons, if_pos h1]
      rw [List.find?_cons_of_neg _ (by simpa using Ne.symm hk),
        List.find?_cons_of_neg _ (by simp [h1, Ne.symm hk])]
      exact ih
    · simp only [dictGet, List.map_cons, if_neg h1]
      by_cases h2 : kv.1 = k
      · rw [List.find?_cons_of_pos _ (by simpa using h2),
          List.find?_cons_of_pos _ (by simpa using h2)]
      · rw [List.find?_cons_of_neg _ (by simpa using h2),
          List.find?_cons_of_neg _ (by simpa using h2)]
        exact ih

lemma dictGet_dictInsert (d : List (String × String)) (k0 v0 k : String) :
    dictGet (dictInsert d k0 v0) k = if k = k0 then some v0 else dictGet d k := by
  unfold dictInsert
  by_cases hany : d.any (fun kv => kv.1 = k0)
  · rw [if_pos hany]
    by_cases hk : k = k0
    · subst hk
      rcases List.any_eq_true.mp hany with ⟨kv, hmem, hkv⟩
      rw [if_pos rfl]
      clear hany
      induction d with
      | nil => cases hmem
      | cons kv' d' ih =>
        by_cases h1 : kv'.1 = k
        · simp only [dictGet, List.map_cons, if_pos h1]
          rw [List.find?_cons_of_pos _ (by simp)]
          rfl
        · simp only [dictGet, List.map_cons, if_neg h1]
          rw [List.find?_cons_of_neg _ (by simpa using h1)]
          rcases List.mem_cons.mp hmem with heq | hmem'
          · exact absurd (heq ▸ of_decide_eq_true hkv) h1
          · exact ih hmem'
    · rw [if_neg hk]
      exact dictGet_dictInsert_map v0 hk
  · rw [if_neg hany]
    unfold dictGet
    rw [List.find?_append]
    by_cases hk : k = k0
    · subst hk
      have hnone : d.find? (fun kv => kv.1 = k) = none := by
        rw [List.find?_eq_none]
        intro kv hkv hp
        exact absurd (List.any_eq_true.mpr ⟨kv, hkv, hp⟩) hany
      rw [if_pos rfl, hnone]
      simp [List.find?]
    · rw [if_neg hk]
      have hnone2 : List.find? (fun kv => kv.1 = k) [(k0, v0)] = none := by
        simp [List.find?, Ne.symm hk]
      rw [hnone2]
      simp

/-! ### Query rendering: the valid query strings of the spec -/

/-- A key of a valid query string: non-empty and made of pattern
characters only (which excludes `&`, `=`, `%`, `+` and whitespace, so
splitting, stripping and decoding leave it untouched). -/
def QKey (k : String) : Prop :=
  k.data ≠ [] ∧ ∀ c ∈ k.data, isKeyChar c = true

/-- A value of a valid query string: free of the separator and escape
characters and of whitespace, so that splitting, stripping and decoding
leave it untouched. -/
def QVal (v : String) : Prop :=
  ∀ c ∈ v.data, c ≠ '&' ∧ c ≠ '%' ∧ c ≠ '+' ∧ isPySpace c = false

/-- The query string `k1=v1&…&kn=vn` of a list of pairs. -/
def renderQuery : List (String × String) → String
  | [] => ""
  | [kv] => kv.1 ++ "=" ++ kv.2
  | kv :: rest => kv.1 ++ "=" ++ kv.2 ++ "&" ++ renderQuery rest

/-- The value of the last occurrence of a key in a list of pairs. -/
def lastLookup (ps : List (String × String)) (k : String) : Option String :=
  (ps.reverse.find? (fun kv => kv.1 = k)).map (fun kv => kv.2)

/-- Python's dict insertion loop: `for` each pair, `d[k] = v`. -/
def foldInsert (d : List (String × String)) (ps : List (String × String)) :
    List (String × String) :=
  ps.foldl (fun d kv => dictInsert d kv.1 kv.2) d

lemma isKeyChar_not_space {c : Char} (h : isKeyChar c = true) :
    isPySpace c = false := by
  by_contra hs
  rw [Bool.not_eq_false] at hs
  simp only [isPySpace, Bool.or_eq_true, decide_eq_true_eq] at hs
  rcases hs with ((((h1 | h1) | h1) | h1) | h1) | h1 <;> subst h1 <;> simp [isKeyChar] at h

lemma isKeyChar_not_special {c : Char} (h : isKeyChar c = true) :
    c ≠ '&' ∧ c ≠ '=' ∧ c ≠ '%' ∧ c ≠ '+' := by
  refine ⟨?_, ?_, ?_, ?_⟩ <;> (intro hc; subst hc; simp [isKeyChar] at h)

/-- A simple pair renders to `key.data ++ '=' :: val.data` and survives
the candidate-pair processing of `_parse_query_params` unchanged. -/
lemma decodedKey_pair {k v : String} (hk : QKey k) :
    decodedKey (k.data ++ '=' :: v.data) = k.data := by
  unfold decodedKey
  have htake : (k.data ++ '=' :: v.data).takeWhile (fun c => c ≠ '=') =
      k.data ++ ('=' :: v.data).takeWhile (fun c => c ≠ '=') :=
    takeWhile_append_of_forall _ (fun c hc => by
      simp [(isKeyChar_not_special (hk.2 c hc)).2.1])
  rw [htake]
  have : ('=' :: v.data).takeWhile (fun c => c ≠ '=') = [] := by
    simp [List.takeWhile_cons]
  rw [this, List.append_nil]
  rw [pyStripL_of_no_space (fun c hc => isKeyChar_not_space (hk.2 c hc))]
  exact unquotePlusL_of_plain (fun c hc =>
    ⟨(isKeyChar_not_special (hk.2 c hc)).2.2.2, (isKeyChar_not_special (hk.2 c hc)).2.2.1⟩)

lemma decodedVal_pair {k v : String} (hk : QKey k) (hv : QVal v) :
    decodedVal (k.data ++ '=' :: v.data) = v.data := by
  unfold decodedVal
  have htake : (k.data ++ '=' :: v.data).takeWhile (fun c => c ≠ '=') = k.data := by
    have h1 : (k.data ++ '=' :: v.data).takeWhile (fun c => c ≠ '=') =
        k.data ++ ('=' :: v.data).takeWhile (fun c => c ≠ '=') :=
      takeWhile_append_of_forall _ (fun c hc => by
        simp [(isKeyChar_not_special (hk.2 c hc)).2.1])
    rw [h1]
    simp [List.takeWhile_cons]
  rw [htake]
  have hdrop : (k.data ++ '=' :: v.data).drop (k.data.length + 1) = v.data := by
    rw [show k.data.length + 1 = (k.data ++ ['=']).length by simp]
    rw [show k.data ++ '=' :: v.data = (k.data ++ ['=']) ++ v.data by simp]
    exact List.drop_left _ _
  rw [hdrop]
  rw [pyStripL_of_no_space (fun c hc => (hv c hc).2.2.2)]
  exact unquotePlusL_of_plain (fun c hc => ⟨(hv c hc).2.2.1, (hv c hc).2.1⟩)

lemma keyMatch_pair {k : String} (hk : QKey k) :
    pyFullMatchPlus isKeyChar k.data = true := by
  unfold pyFullMatchPlus
  rw [List.takeWhile_eq_self_iff.mpr hk.2]
  simp [List.drop_length, hk.1]

lemma pair_has_eq (k v : String) :
    (k.data ++ '=' :: v.data).any (fun c => c = '=') = true := by
  rw [List.any_eq_true]
  exact ⟨'=', List.mem_append_right _ (List.mem_cons_self _ _), by simp⟩

lemma pair_no_amp {k v : String} (hk : QKey k) (hv : QVal v) :
    ∀ c ∈ k.data ++ '=' :: v.data, c ≠ '&' := by
  intro c hc
  rcases List.mem_append.mp hc with h1 | h1
  · exact (isKeyChar_not_special (hk.2 c h1)).1
  · rcases List.mem_cons.mp h1 with h2 | h2
    · subst h2; decide
    · exact (hv c h2).1

/-- Splitting a rendered query on `&` recovers exactly the rendered
pairs. -/
lemma split_render : ∀ (ps : List (String × String)), ps ≠ [] →
    (∀ kv ∈ ps, QKey kv.1 ∧ QVal kv.2) →
    pySplitCh '&' (renderQuery ps).data =
      ps.map (fun kv => kv.1.data ++ '=' :: kv.2.data)
  | [], h, _ => absurd rfl h
  | [kv], _, h => by
    have hkv := h kv (List.mem_cons_self _ _)
    have : (renderQuery [kv]).data = kv.1.data ++ '=' :: kv.2.data := by
      simp [renderQuery, String.data_append]
    rw [this]
    rw [pySplitCh_no_sep (pair_no_amp hkv.1 hkv.2)]
    rfl
  | kv :: kv2 :: rest, _, h => by
    have hkv := h kv (List.mem_cons_self _ _)
    have hrest : ∀ x ∈ kv2 :: rest, QKey x.1 ∧ QVal x.2 :=
      fun x hx => h x (List.mem_cons_of_mem _ hx)
    have ih := split_render (kv2 :: rest) (by simp) hrest
    have hdata : (renderQuery (kv :: kv2 :: rest)).data =
        (kv.1.data ++ '=' :: kv.2.data) ++ '&' :: (renderQuery (kv2 :: rest)).data := by
      show (kv.1 ++ "=" ++ kv.2 ++ "&" ++ renderQuery (kv2 :: rest)).data = _
      simp [String.data_append]
    rw [hdata, pySplitCh_append _ (pair_no_amp hkv.1 hkv.2), ih]
    rfl

/-- The parse loop over rendered simple pairs performs exactly the dict
insertions. -/
lemma parseLoop_render : ∀ (ps : List (String × String))
    (acc : List (String × String)), (∀ kv ∈ ps, QKey kv.1 ∧ QVal kv.2) →
    parseLoop (ps.map (fun kv => kv.1.data ++ '=' :: kv.2.data)) acc =
      .ok (foldInsert acc ps)
  | [], acc, _ => rfl
  | (k, v) :: rest, acc, h => by
    have hkv := h (k, v) (List.mem_cons_self _ _)
    have hrest : ∀ x ∈ rest, QKey x.1 ∧ QVal x.2 :=
      fun x hx => h x (List.mem_cons_of_mem _ hx)
    have ih := parseLoop_render rest (dictInsert acc k v) hrest
    simp only [List.map_cons, parseLoop, pair_has_eq k v, if_true,
      decodedKey_pair hkv.1, decodedVal_pair hkv.1 hkv.2, keyMatch_pair hkv.1,
      string_mk_data]
    exact ih

/-- Looking a key up after the insertion loop yields the value of its
last occurrence (later pairs overwrite earlier ones). -/
lemma dictGet_foldInsert : ∀ (ps : List (String × String))
    (d : List (String × String)) (k : String),
    dictGet (foldInsert d ps) k = (lastLookup ps k).or (dictGet d k)
  | [], d, k => by simp [foldInsert, lastLookup, Option.or]
  | (k0, v0) :: ps, d, k => by
    have ih := dictGet_foldInsert ps (dictInsert d k0 v0) k
    show dictGet (foldInsert (dictInsert d k0 v0) ps) k = _
    rw [ih, dictGet_dictInsert]
    have hlast : lastLookup ((k0, v0) :: ps) k =
        (lastLookup ps k).or (if k = k0 then some v0 else none) := by
      unfold lastLookup
      rw [List.reverse_cons, List.find?_append]
      cases hfind : ps.reverse.find? (fun kv => kv.1 = k) with
      | some kv => simp [Option.or]
      | none =>
        by_cases hk : k = k0
        · subst hk
          simp [Option.or, List.find?]
        · have : List.find? (fun kv => kv.1 = k) [(k0, v0)] = none := by
            simp [List.find?, Ne.symm hk]
          simp [Option.or, this, hk]
    rw [hlast]
    by_cases hk : k = k0
    · subst hk
      cases hlk : lastLookup ps k with
      | some v => simp [Option.or]
      | none => simp [Option.or]
    · simp only [if_neg hk]
      cases hlk : lastLookup ps k with
      | some v => simp [Option.or]
      | none => simp [Option.or]

/-- A rendered non-empty query is not whitespace-only: its first
character is a key character. -/
lemma renderQuery_strip_ne_empty : ∀ (ps : List (String × String)), ps ≠ [] →
    (∀ kv ∈ ps, QKey kv.1 ∧ QVal kv.2) → pyStrip (renderQuery ps) ≠ ""
  | [], h, _ => absurd rfl h
  | (k, v) :: rest, _, h => by
    have hkv := h (k, v) (List.mem_cons_self _ _)
    intro hc
    rw [pyStrip_eq_empty_iff] at hc
    rcases List.exists_cons_of_ne_nil hkv.1.1 with ⟨c, l', hl⟩
    have hc_mem : c ∈ (renderQuery ((k, v) :: rest)).data := by
      have : c ∈ k.data := by rw [hl]; exact List.mem_cons_self _ _
      cases rest with
      | nil =>
        show c ∈ (k ++ "=" ++ v).data
        simp [String.data_append]
        exact Or.inl this
      | cons kv2 rest' =>
        show c ∈ (k ++ "=" ++ v ++ "&" ++ renderQuery (kv2 :: rest')).data
        simp [String.data_append]
        exact Or.inl this
    have hspace := hc c hc_mem
    have hkey : isKeyChar c = true := hkv.1.2 c (by rw [hl]; exact List.mem_cons_self _ _)
    rw [isKeyChar_not_space hkey] at hspace
    cases hspace

/-- A candidate pair with `=` whose decoded key fails the pattern makes
the parse loop raise. -/
lemma parseLoop_error_of_bad : ∀ (l : List (List Char))
    (acc : List (String × String)) (p : List Char), p ∈ l →
    p.any (fun c => c = '=') = true →
    pyFullMatchPlus isKeyChar (decodedKey p) = false →
    ∃ m, parseLoop l acc = .error m
  | [], _, p, hp, _, _ => absurd hp (List.not_mem_nil p)
  | q :: rest, acc, p, hp, heq, hbad => by
    rcases List.mem_cons.mp hp with h1 | h1
    · subst h1
      refine ⟨"Invalid parameter name: " ++ String.mk (decodedKey p), ?_⟩
      simp only [parseLoop, heq, if_true, hbad]
      simp
    · by_cases hq : q.any (fun c => c = '=') = true
      · by_cases hqk : pyFullMatchPlus isKeyChar (decodedKey q) = true
        · simp only [parseLoop, hq, if_true, hqk]
          exact parseLoop_error_of_bad rest _ p h1 heq hbad
        · rw [Bool.not_eq_true] at hqk
          refine ⟨"Invalid parameter name: " ++ String.mk (decodedKey q), ?_⟩
          simp only [parseLoop, hq, if_true, hqk]
          simp
      · rw [Bool.not_eq_true] at hq
        simp only [parseLoop, hq]
        simp only [Bool.false_eq_true, if_false]
        exact parseLoop_error_of_bad rest _ p h1 heq hbad

/-- When `bugcrowd_request` records an issued request, that request is
the one built from the loaded credentials, the composed URL and the
cleaned parameters. -/
lemma bugcrowd_request_issued (method endpoint : String)
    (json_data : Option (List (String × PyValue)))
    (query_params : List (String × Option String)) (env : Env) (req : Request)
    (h : (bugcrowd_request method endpoint json_data query_params env).2 = some req) :
    ∃ c, _load_api_credentials env.username env.password env.cache = .ok c ∧
      req = { method := method
              url := BUGCROWD_API_BASE ++ endpoint
              headers := buildHeaders c
              params := cleanParams query_params
              jsonData := json_data } := by
  unfold bugcrowd_request at h
  revert h
  cases hload : _load_api_credentials env.username env.password env.cache with
  | error m =>
    intro h
    cases h
  | ok c =>
    dsimp only
    intro h
    split at h
    · cases h
      exact ⟨c, rfl, rfl⟩
    · cases h
      exact ⟨c, rfl, rfl⟩

/-! ### Claim theorems -/

/-- C5, counterexample: on the query string `bad%20key=1` the candidate
key decodes to `bad key`, which contains a space (outside the allowed
charset); the call fails with a `MalformedInput` error, but the raised
error's message is `Malformed query parameters: bad%20key=1`, which
does not name the offending (decoded) key `bad key` — that name only
appears in the suppressed inner exception. -/
theorem C5_counterexample :
    _parse_query_params "bad%20key=1" =
      .error "Malformed query parameters: bad%20key=1" ∧
    String.mk (decodedKey "bad%20key=1".data) = "bad key" ∧
    pyFullMatchPlus isKeyChar (decodedKey "bad%20key=1".data) = false ∧
    ¬ ("bad key".data <:+: "Malformed query parameters: bad%20key=1".data) :=
  ⟨rfl, rfl, rfl, by decide⟩

/-- C5 (amended): whenever some candidate pair of the query string
contains `=` and its decoded key fails the anchored key pattern,
`_parse_query_params` fails with a `MalformedInput` error whose message
carries the original raw query string (`Malformed query parameters:
<raw>`); the offending key is named only in the suppressed inner
error. -/
theorem C5_invalid_key_error (qs : String) (p : List Char)
    (hne : pyStrip qs ≠ "") (hp : p ∈ pySplitCh '&' qs.data)
    (heq : p.any (fun c => c = '=') = true)
    (hbad : pyFullMatchPlus isKeyChar (decodedKey p) = false) :
    _parse_query_params qs = .error ("Malformed query parameters: " ++ qs) := by
  obtain ⟨m, hm⟩ := parseLoop_error_of_bad _ [] p hp heq hbad
  unfold _parse_query_params
  rw [if_neg hne, hm]

/-- C5, witness: the amended theorem applied to the spec's own example
`bad key=1`. -/
theorem C5_invalid_key_error_witness :
    pyStrip "bad key=1" ≠ "" ∧
    _parse_query_params "bad key=1" =
      .error ("Malformed query parameters: " ++ "bad key=1") :=
  ⟨by decide,
   C5_invalid_key_error "bad key=1" "bad key=1".data (by decide) (by decide)
     (by decide) (by decide)⟩

/-- C6: parsing a whitespace-only query string yields the empty
mapping; parsing a rendered valid query string `k1=v1&…&kn=vn` yields
the dict built by the insertion loop, in which every key is mapped to
the value of its last occurrence (later duplicates overwrite earlier
ones). -/
theorem C6_parse_query_semantics :
    (∀ qs : String, (∀ c ∈ qs.data, isPySpace c = true) →
      _parse_query_params qs = .ok [])
    ∧ (∀ ps : List (String × String), (∀ kv ∈ ps, QKey kv.1 ∧ QVal kv.2) →
        _parse_query_params (renderQuery ps) = .ok (foldInsert [] ps)
        ∧ ∀ k, dictGet (foldInsert [] ps) k = lastLookup ps k) := by
  constructor
  · intro qs h
    unfold _parse_query_params
    rw [if_pos ((pyStrip_eq_empty_iff qs).mpr h)]
  · intro ps h
    constructor
    · cases ps with
      | nil => rfl
      | cons kv rest =>
        have hne := renderQuery_strip_ne_empty (kv :: rest) (by simp) h
        unfold _parse_query_params
        rw [if_neg hne, split_render (kv :: rest) (by simp) h,
          parseLoop_render (kv :: rest) [] h]
    · intro k
      rw [dictGet_foldInsert]
      cases lastLookup ps k with
      | some v => rfl
      | none => rfl

/-- C6, witness: the spec's duplicate-key example, where the last
occurrence wins, and a whitespace-only string. -/
theorem C6_parse_query_semantics_witness :
    renderQuery [("filter[status]", "open"), ("filter[status]", "closed")] =
      "filter[status]=open&filter[status]=closed" ∧
    _parse_query_params
        (renderQuery [("filter[status]", "open"), ("filter[status]", "closed")]) =
      .ok (foldInsert [] [("filter[status]", "open"), ("filter[status]", "closed")]) ∧
    dictGet (foldInsert [] [("filter[status]", "open"), ("filter[status]", "closed")])
      "filter[status]" =
      lastLookup [("filter[status]", "open"), ("filter[status]", "closed")]
        "filter[status]" ∧
    _parse_query_params "   " = .ok [] := by
  have hgood : ∀ kv ∈ [("filter[status]", "open"), ("filter[status]", "closed")],
      QKey kv.1 ∧ QVal kv.2 := by
    intro kv hkv
    rcases List.mem_cons.mp hkv with h | h
    · subst h
      exact ⟨⟨by decide, by decide⟩, by unfold QVal; decide⟩
    rcases List.mem_cons.mp h with h2 | h2
    · subst h2
      exact ⟨⟨by decide, by decide⟩, by unfold QVal; decide⟩
    · cases h2
  exact ⟨rfl, (C6_parse_query_semantics.2 _ hgood).1,
    (C6_parse_query_semantics.2 _ hgood).2 "filter[status]",
    C6_parse_query_semantics.1 "   " (by decide)⟩

/-- C9: an empty-string resource id is falsy in Python, so
`_make_api_request` skips validation entirely — even though
`_validate_resource_id` rejects the empty id — leaves the endpoint
unchanged, and issues the request against the bare collection endpoint;
in particular a get-one tool call with `id=""` behaves exactly as the
list-all call. -/
theorem C9_empty_resource_id (method endpoint query_params : String)
    (json_data : Option (List (String × PyValue))) (env : Env) :
    _make_api_request method endpoint (some "") query_params json_data env =
      _make_api_request method endpoint none query_params json_data env ∧
    _validate_resource_id "" = .error "Resource ID cannot be empty" ∧
    (∀ req,
      (_make_api_request method endpoint (some "") query_params json_data env).2 =
        some req → req.url = BUGCROWD_API_BASE ++ endpoint) ∧
    get_organization "" query_params env = get_organizations query_params env := by
  refine ⟨rfl, rfl, ?_, rfl⟩
  intro req h
  have h2 : (match _parse_query_params query_params with
      | .error m => ((.error (.valueError m) : Except GatewayError String),
          (none : Option Request))
      | .ok parsed_params =>
        match parsed_params.find? (fun kv : String × String =>
            collidesWithParam kv.1) with
        | some kv => (.error (.typeError
            ("bugcrowd_request() got multiple values for argument " ++ kv.1)), none)
        | none =>
          bugcrowd_request method endpoint json_data
            (parsed_params.map (fun kv : String × String =>
              (kv.1, some kv.2))) env).2 = some req := h
  clear h
  revert h2
  cases hp : _parse_query_params query_params with
  | error m =>
    intro h2
    cases h2
  | ok parsed =>
    intro h2
    split at h2
    · cases h2
    · split at h2
      · cases h2
      · obtain ⟨c, _, hreq⟩ := bugcrowd_request_issued _ _ _ _ _ _ h2
        rw [hreq]

/-- C9, witness: with valid credentials and a responding transport, the
empty-id request goes to the bare collection URL. -/
theorem C9_empty_resource_id_witness :
    _make_api_request "GET" "/organizations" (some "") "" none stubEnv =
      _make_api_request "GET" "/organizations" none "" none stubEnv ∧
    ((_make_api_request "GET" "/organizations" (some "") "" none stubEnv).2 =
        some (reqOrganizations []) →
      (reqOrganizations []).url = BUGCROWD_API_BASE ++ "/organizations") :=
  ⟨(C9_empty_resource_id "GET" "/organizations" "" none stubEnv).1,
   (C9_empty_resource_id "GET" "/organizations" "" none stubEnv).2.2.1 _⟩

/-- C10, counterexample: the parsed key `method` passes query-string
validation, but during `**parsed_params` expansion it collides with the
bound `method` parameter of `bugcrowd_request`, so CPython raises an
uncaught `TypeError` before any network call — the entry is neither
forwarded nor silently dropped. -/
theorem C10_counterexample :
    _parse_query_params "method=DELETE" = .ok [("method", "DELETE")] ∧
    _make_api_request "GET" "/organizations" none "method=DELETE" none stubEnv =
      (.error (.typeError
        "bugcrowd_request() got multiple values for argument method"), none) :=
  ⟨rfl, rfl⟩

/-- C10 (amended): the `clean_params` comprehension of
`bugcrowd_request` drops every entry whose key is literally
`query_params` and every entry whose value is `None`, so a
caller-supplied parameter named `query_params` passes validation but is
never sent upstream; however, an entry whose key is `method`,
`endpoint` or `json_data` collides with a bound parameter during
`**parsed_params` expansion and raises an uncaught `TypeError` before
any network call; all remaining entries are forwarded unchanged. -/
theorem C10_query_params_filtered (qp : List (String × Option String)) :
    (∀ k v, (k, v) ∈ cleanParams qp ↔ ((k, some v) ∈ qp ∧ k ≠ "query_params")) ∧
    _parse_query_params "query_params=x" = .ok [("query_params", "x")] ∧
    (∀ env req,
      (_make_api_request "GET" "/organizations" none "query_params=x&limit=1"
          none env).2 = some req →
      req.params = [("limit", "1")]) ∧
    (∀ method endpoint qs json_data env parsed kv,
      _parse_query_params qs = .ok parsed →
      parsed.find? (fun entry => collidesWithParam entry.1) = some kv →
      _make_api_request method endpoint none qs json_data env =
        (.error (.typeError
          ("bugcrowd_request() got multiple values for argument " ++ kv.1)),
         none)) := by
  refine ⟨?_, rfl, ?_, ?_⟩
  · intro k v
    constructor
    · intro h
      unfold cleanParams at h
      obtain ⟨kv, hmem, hf⟩ := List.mem_filterMap.mp h
      obtain ⟨k1, v1⟩ := kv
      by_cases hq : k1 = "query_params"
      · rw [if_pos (by simpa using hq)] at hf
        cases hf
      · rw [if_neg (by simpa using hq)] at hf
        cases v1 with
        | none => cases hf
        | some v1' =>
          simp only [Option.map_some'] at hf
          injection hf with hf2
          injection hf2 with hk hv
          subst hk
          subst hv
          exact ⟨hmem, hq⟩
    · rintro ⟨hmem, hk⟩
      unfold cleanParams
      exact List.mem_filterMap.mpr ⟨(k, some v), hmem, by simp [hk]⟩
  · intro env req h
    have hstep : _make_api_request "GET" "/organizations" none
        "query_params=x&limit=1" none env =
        bugcrowd_request "GET" "/organizations" none
          [("query_params", some "x"), ("limit", some "1")] env := rfl
    rw [hstep] at h
    obtain ⟨c, _, hreq⟩ := bugcrowd_request_issued _ _ _ _ _ _ h
    rw [hreq]
    rfl
  · intro method endpoint qs json_data env parsed kv hp hf
    unfold _make_api_request
    dsimp only
    show (match _parse_query_params qs with
      | .error m => ((.error (.valueError m) : Except GatewayError String),
          (none : Option Request))
      | .ok parsed_params =>
        match parsed_params.find? (fun entry : String × String =>
            collidesWithParam entry.1) with
        | some entry => (.error (.typeError
            ("bugcrowd_request() got multiple values for argument " ++ entry.1)),
           none)
        | none =>
          bugcrowd_request method endpoint json_data
            (parsed_params.map (fun entry : String × String =>
              (entry.1, some entry.2))) env) =
      (.error (.typeError
        ("bugcrowd_request() got multiple values for argument " ++ kv.1)), none)
    rw [hp]
    show (match parsed.find? (fun entry : String × String =>
            collidesWithParam entry.1) with
      | some entry => ((.error (.typeError
          ("bugcrowd_request() got multiple values for argument " ++ entry.1)) :
            Except GatewayError String),
         (none : Option Request))
      | none =>
        bugcrowd_request method endpoint json_data
          (parsed.map (fun entry : String × String =>
            (entry.1, some entry.2))) env) =
      (.error (.typeError
        ("bugcrowd_request() got multiple values for argument " ++ kv.1)), none)
    rw [hf]

/-- C10, witness: with valid credentials, the `query_params=x` entry of
the parsed query string is absent from the issued request, and the
parsed key `method` triggers the collision `TypeError`. -/
theorem C10_query_params_filtered_witness :
    (("limit", "1") ∈ cleanParams [("query_params", some "x"), ("limit", some "1")] ↔
      (("limit", some "1") ∈ [("query_params", some "x"), ("limit", some "1")] ∧
        "limit" ≠ "query_params")) ∧
    ((_make_api_request "GET" "/organizations" none "query_params=x&limit=1"
        none stubEnv).2 = some (reqOrganizations [("limit", "1")]) →
      (reqOrganizations [("limit", "1")]).params = [("limit", "1")]) ∧
    _make_api_request "GET" "/organizations" none "method=DELETE" none stubEnv =
      (.error (.typeError
        ("bugcrowd_request() got multiple values for argument " ++ "method")),
       none) :=
  ⟨(C10_query_params_filtered [("query_params", some "x"), ("limit", some "1")]).1
      "limit" "1",
   (C10_query_params_filtered []).2.2.1 stubEnv _,
   (C10_query_params_filtered []).2.2.2 "GET" "/organizations" "method=DELETE"
     none stubEnv [("method", "DELETE")] ("method", "DELETE") rfl rfl⟩

/-- C3, counterexample: for the empty object, `create_submission` does
fail with a `MalformedInput` error before any network call, but the
first guard fires with the message `Submission data must be a non-empty
dictionary`; the error does not list `title` and `description` (the
missing-fields message is only reachable for non-empty bodies). -/
theorem C3_counterexample :
    (create_submission [] stubEnv).1 =
      .error (.valueError "Submission data must be a non-empty dictionary") ∧
    (create_submission [] stubEnv).2 = none ∧
    ¬ ("title".data <:+: "Submission data must be a non-empty dictionary".data) ∧
    ¬ ("description".data <:+: "Submission data must be a non-empty dictionary".data) :=
  ⟨rfl, rfl, by decide, by decide⟩

/-- C3 (amended): for the empty object, `create_submission` fails with
a `MalformedInput` error saying the body must be a non-empty
dictionary, with zero network calls; the error listing both `title` and
`description` as missing arises for every non-empty body in which both
fields are missing or falsy, again with zero network calls. -/
theorem C3_create_submission_validation (env : Env) :
    create_submission [] env =
      (.error (.valueError "Submission data must be a non-empty dictionary"), none) ∧
    (∀ data : List (String × PyValue), data ≠ [] →
      ((pyGet data "title").getD .pyNone).truthy = false →
      ((pyGet data "description").getD .pyNone).truthy = false →
      create_submission data env =
        (.error (.valueError "Missing required fields: title, description"), none)) := by
  refine ⟨rfl, ?_⟩
  intro data hne h1 h2
  cases data with
  | nil => exact absurd rfl hne
  | cons kv rest =>
    simp only [create_submission, List.isEmpty_cons, Bool.false_eq_true, if_false,
      List.filter, h1, h2]
    rfl

/-- C3, witness: a body carrying only `program_id` triggers the
missing-fields error naming both required fields. -/
theorem C3_create_submission_validation_witness :
    create_submission [("program_id", PyValue.str "prog-123")] stubEnv =
      (.error (.valueError "Missing required fields: title, description"), none) :=
  (C3_create_submission_validation stubEnv).2 [("program_id", PyValue.str "prog-123")]
    (List.cons_ne_nil _ _) rfl rfl

/-- C4, counterexample: a 2xx response whose body fails to decode as
JSON is mapped by the generic `except Exception` handler to the
catch-all message `Unexpected error during API request: …` — exactly
the same error as an arbitrary unexpected failure with the same cause;
no distinct `ProtocolError` kind exists in the code. -/
theorem C4_counterexample :
    classifyOutcome "/organizations"
        (.response 200 (.error "Expecting value: line 1 column 1 (char 0)") "<html>") =
      .error ("Unexpected error during API request: " ++
        "Expecting value: line 1 column 1 (char 0)") ∧
    classifyOutcome "/organizations"
        (.otherFailure "Expecting value: line 1 column 1 (char 0)") =
      .error ("Unexpected error during API request: " ++
        "Expecting value: line 1 column 1 (char 0)") :=
  ⟨rfl, rfl⟩

/-- C4 (amended): a success (2xx) response with an undecodable body is
not silently swallowed — `execute` fails — but the failure is the
generic catch-all error (`Unexpected error during API request: …`),
indistinguishable from any other unexpected failure with the same
cause text; the code defines no separate `ProtocolError`. -/
theorem C4_undecodable_success_body (endpoint : String) (status : Nat)
    (m text : String) (h : 200 ≤ status ∧ status < 300) :
    classifyOutcome endpoint (.response status (.error m) text) =
      .error ("Unexpected error during API request: " ++ m) ∧
    classifyOutcome endpoint (.response status (.error m) text) =
      classifyOutcome endpoint (.otherFailure m) ∧
    (∀ method json_data qp u p,
      (bugcrowd_request method endpoint json_data qp
        { username := u, password := p, cache := some ⟨"cu", "cp"⟩,
          respond := fun _ => .response status (.error m) text }).1 =
        .error (.runtimeError ("Unexpected error during API request: " ++ m))) := by
  have hcl : classifyOutcome endpoint (.response status (.error m) text) =
      .error ("Unexpected error during API request: " ++ m) := by
    unfold classifyOutcome
    dsimp only
    rw [if_pos h]
  refine ⟨hcl, hcl.trans rfl, ?_⟩
  intro method json_data qp u p
  unfold bugcrowd_request
  dsimp only
  rw [hcl]
  rfl

/-- C4, witness: the amended theorem at status 200 with a concrete
decode failure. -/
theorem C4_undecodable_success_body_witness :
    classifyOutcome "/organizations" (.response 200 (.error "boom") "x") =
      .error ("Unexpected error during API request: " ++ "boom") ∧
    (bugcrowd_request "GET" "/organizations" none []
      { username := some "u", password := some "p", cache := some ⟨"cu", "cp"⟩,
        respond := fun _ => .response 200 (.error "boom") "x" }).1 =
      .error (.runtimeError ("Unexpected error during API request: " ++ "boom")) :=
  ⟨(C4_undecodable_success_body "/organizations" 200 "boom" "x" (by decide)).1,
   (C4_undecodable_success_body "/organizations" 200 "boom" "x" (by decide)).2.2
     "GET" none [] (some "u") (some "p")⟩

/-- C7, counterexample: the 401 classification raises an error whose
message (`Authentication failed. …`) contains neither the failing
method `GET` nor the endpoint `/programs` — method and endpoint appear
only in the log line, not in the raised error. -/
theorem C7_counterexample :
    (bugcrowd_request "GET" "/programs" none []
        { username := some "u", password := some "p", cache := none,
          respond := fun _ => .response 401 (.ok "body") "denied" }).1 =
      .error (.runtimeError
        "Authentication failed. Please check your Bugcrowd API credentials.") ∧
    ¬ ("GET".data <:+:
        "Authentication failed. Please check your Bugcrowd API credentials.".data) ∧
    ¬ ("/programs".data <:+:
        "Authentication failed. Please check your Bugcrowd API credentials.".data) :=
  ⟨rfl, by decide, by decide⟩

/-- C7 (amended): every classified error carries a non-empty
human-readable message drawn from a fixed list of shapes; only the
not-found message includes the endpoint and only the generic upstream
message (raised for any surfaced non-2xx status outside 401/403/404/429)
the numeric status; the method is included in none of them, and every
shape is built from the endpoint, the status or the underlying failure
text alone — never from the credentials. -/
theorem C7_classified_error_messages (endpoint : String) (res : CallResult)
    (msg : String) (h : classifyOutcome endpoint res = .error msg) :
    msg ≠ "" ∧
    (msg = "Authentication failed. Please check your Bugcrowd API credentials." ∨
     msg = "Access forbidden. You may not have permission to access this resource." ∨
     msg = "Resource not found: " ++ endpoint ∨
     msg = "Rate limit exceeded. Please try again later." ∨
     (∃ status : Nat, ¬(200 ≤ status ∧ status < 300) ∧
       msg = "API request failed with status " ++ toString status) ∨
     msg = "Network error: Unable to connect to Bugcrowd API" ∨
     (∃ cause : String, msg = "Unexpected error during API request: " ++ cause)) := by
  cases res with
  | response status jsonBody text =>
    unfold classifyOutcome at h
    dsimp only at h
    by_cases h2xx : 200 ≤ status ∧ status < 300
    · rw [if_pos h2xx] at h
      cases jsonBody with
      | ok body => exact Except.noConfusion h
      | error m =>
        injection h with h2
        subst h2
        exact ⟨string_append_ne_empty_left _ (by decide),
          Or.inr (Or.inr (Or.inr (Or.inr (Or.inr (Or.inr ⟨m, rfl⟩)))))⟩
    · rw [if_neg h2xx] at h
      by_cases h401 : status = 401
      · rw [if_pos h401] at h
        injection h with h2
        subst h2
        exact ⟨by decide, Or.inl rfl⟩
      · rw [if_neg h401] at h
        by_cases h403 : status = 403
        · rw [if_pos h403] at h
          injection h with h2
          subst h2
          exact ⟨by decide, Or.inr (Or.inl rfl)⟩
        · rw [if_neg h403] at h
          by_cases h404 : status = 404
          · rw [if_pos h404] at h
            injection h with h2
            subst h2
            exact ⟨string_append_ne_empty_left _ (by decide),
              Or.inr (Or.inr (Or.inl rfl))⟩
          · rw [if_neg h404] at h
            by_cases h429 : status = 429
            · rw [if_pos h429] at h
              injection h with h2
              subst h2
              exact ⟨by decide, Or.inr (Or.inr (Or.inr (Or.inl rfl)))⟩
            · rw [if_neg h429] at h
              injection h with h2
              subst h2
              exact ⟨string_append_ne_empty_left _ (by decide),
                Or.inr (Or.inr (Or.inr (Or.inr (Or.inl ⟨status, h2xx, rfl⟩))))⟩
  | requestError m =>
    injection h with h2
    subst h2
    exact ⟨by decide, Or.inr (Or.inr (Or.inr (Or.inr (Or.inr (Or.inl rfl)))))⟩
  | otherFailure m =>
    injection h with h2
    subst h2
    exact ⟨string_append_ne_empty_left _ (by decide),
      Or.inr (Or.inr (Or.inr (Or.inr (Or.inr (Or.inr ⟨m, rfl⟩)))))⟩

/-- C7, witness: the amended theorem at a concrete 404 response, whose
message carries the endpoint. -/
theorem C7_classified_error_messages_witness :
    "Resource not found: /programs" ≠ "" ∧
    ("Resource not found: /programs" =
       "Authentication failed. Please check your Bugcrowd API credentials." ∨
     "Resource not found: /programs" =
       "Access forbidden. You may not have permission to access this resource." ∨
     "Resource not found: /programs" = "Resource not found: " ++ "/programs" ∨
     "Resource not found: /programs" = "Rate limit exceeded. Please try again later." ∨
     (∃ status : Nat, ¬(200 ≤ status ∧ status < 300) ∧
       "Resource not found: /programs" =
         "API request failed with status " ++ toString status) ∨
     "Resource not found: /programs" = "Network error: Unable to connect to Bugcrowd API" ∨
     (∃ cause : String,
       "Resource not found: /programs" =
         "Unexpected error during API request: " ++ cause)) :=
  C7_classified_error_messages "/programs" (.response 404 (.ok "body") "gone")
    "Resource not found: /programs" rfl

/-- C8: `server_health` is a total function of the probe's outcome: it
always returns a structured report whose `status` is `healthy` or
`unhealthy` and whose `api_connection` is `ok` or `error`; every error
outcome of the underlying `_make_api_request` call is absorbed into the
`unhealthy` report carrying the error message, never propagated. -/
theorem C8_health_check_total (env : Env) :
    (dictGet (server_health env) "status" = some "healthy" ∨
     dictGet (server_health env) "status" = some "unhealthy") ∧
    (dictGet (server_health env) "api_connection" = some "ok" ∨
     dictGet (server_health env) "api_connection" = some "error") ∧
    (∀ e, (_make_api_request "GET" "/organizations" none "limit=1" none env).1 =
        .error e →
      server_health env =
        [("status", "unhealthy"), ("api_connection", "error"),
         ("error", e.message), ("version", "1.0.0")]) ∧
    (∀ b, (_make_api_request "GET" "/organizations" none "limit=1" none env).1 =
        .ok b →
      server_health env =
        [("status", "healthy"), ("api_connection", "ok"), ("version", "1.0.0"),
         ("bugcrowd_api_version", BUGCROWD_API_VERSION)]) := by
  unfold server_health
  cases hres : (_make_api_request "GET" "/organizations" none "limit=1" none env).1 with
  | ok b =>
    refine ⟨Or.inl rfl, Or.inl rfl, ?_, ?_⟩
    · intro e he
      exact Except.noConfusion he
    · intro b' _
      rfl
  | error e =>
    refine ⟨Or.inr rfl, Or.inr rfl, ?_, ?_⟩
    · intro e' he
      injection he with h2
      subst h2
      rfl
    · intro b' hb
      exact Except.noConfusion hb

/-- C8, witness: under the refusing transport the report is unhealthy
and carries the network error message. -/
theorem C8_health_check_total_witness :
    server_health stubEnv =
      [("status", "unhealthy"), ("api_connection", "error"),
       ("error", (GatewayError.runtimeError
         "Network error: Unable to connect to Bugcrowd API").message),
       ("version", "1.0.0")] :=
  (C8_health_check_total stubEnv).2.2.1
    (.runtimeError "Network error: Unable to connect to Bugcrowd API") rfl

/-- C1: when either environment variable is unset or empty and nothing
is cached, credential loading raises the configuration error and no
request is issued; when credentials load (in particular from the
cache), the issued request carries exactly one `Authorization` header
of the form `Token <principal>:<secret>` built from that single
credentials value, the pinned `Accept` media type, the fixed
API-version header and the identifying client header. -/
theorem C1_outbound_auth_headers (env : Env) (method endpoint : String)
    (json_data : Option (List (String × PyValue)))
    (query_params : List (String × Option String)) :
    ((env.cache = none ∧
        ¬(truthyEnv env.username = true ∧ truthyEnv env.password = true)) →
      bugcrowd_request method endpoint json_data query_params env =
        (.error (.runtimeError ("Unexpected error during API request: " ++
          ("BUGCROWD_API_USERNAME and BUGCROWD_API_PASSWORD must be set in environment variables. " ++
           "Please configure your Bugcrowd API credentials."))), none)) ∧
    (∀ c, _load_api_credentials env.username env.password env.cache = .ok c →
      ∃ req, (bugcrowd_request method endpoint json_data query_params env).2 =
          some req ∧
        req.headers.filter (fun kv => kv.1 = "Authorization") =
          [("Authorization", "Token " ++ c.username ++ ":" ++ c.password)] ∧
        req.headers.filter (fun kv => kv.1 = "Accept") =
          [("Accept", "application/vnd.bugcrowd+json")] ∧
        req.headers.filter (fun kv => kv.1 = "Bugcrowd-Version") =
          [("Bugcrowd-Version", BUGCROWD_API_VERSION)] ∧
        req.headers.filter (fun kv => kv.1 = "User-Agent") =
          [("User-Agent", "Bugcrowd-MCP-Server/1.0.0")] ∧
        (∀ c0, env.cache = some c0 → c = c0)) := by
  constructor
  · rintro ⟨hc, hcred⟩
    unfold bugcrowd_request _load_api_credentials
    rw [hc]
    dsimp only
    rw [if_neg hcred]
  · intro c hload
    have hsnd : (bugcrowd_request method endpoint json_data query_params env).2 =
        some { method := method, url := BUGCROWD_API_BASE ++ endpoint,
               headers := buildHeaders c, params := cleanParams query_params,
               jsonData := json_data } := by
      unfold bugcrowd_request
      rw [hload]
      dsimp only
      split <;> rfl
    refine ⟨_, hsnd, rfl, rfl, rfl, rfl, ?_⟩
    intro c0 hc0
    rw [hc0] at hload
    unfold _load_api_credentials at hload
    injection hload with h2
    exact h2.symm

/-- C1, witness: unset variables raise the configuration error with no
request issued; under `stubEnv` the single issued request carries the
four headers, one `Authorization` among them. -/
theorem C1_outbound_auth_headers_witness :
    (bugcrowd_request "GET" "/organizations" none []
        { username := none, password := none, cache := none,
          respond := fun _ => .requestError "refused" } =
      (.error (.runtimeError ("Unexpected error during API request: " ++
        ("BUGCROWD_API_USERNAME and BUGCROWD_API_PASSWORD must be set in environment variables. " ++
         "Please configure your Bugcrowd API credentials."))), none)) ∧
    (∃ req, (bugcrowd_request "GET" "/organizations" none [] stubEnv).2 =
        some req ∧
      req.headers.filter (fun kv => kv.1 = "Authorization") =
        [("Authorization", "Token " ++ stubCreds.username ++ ":" ++ stubCreds.password)] ∧
      req.headers.filter (fun kv => kv.1 = "Accept") =
        [("Accept", "application/vnd.bugcrowd+json")] ∧
      req.headers.filter (fun kv => kv.1 = "Bugcrowd-Version") =
        [("Bugcrowd-Version", BUGCROWD_API_VERSION)] ∧
      req.headers.filter (fun kv => kv.1 = "User-Agent") =
        [("User-Agent", "Bugcrowd-MCP-Server/1.0.0")] ∧
      (∀ c0, stubEnv.cache = some c0 → stubCreds = c0)) :=
  ⟨(C1_outbound_auth_headers
      { username := none, password := none, cache := none,
        respond := fun _ => .requestError "refused" }
      "GET" "/organizations" none []).1 ⟨rfl, by decide⟩,
   (C1_outbound_auth_headers stubEnv "GET" "/organizations" none []).2
     stubCreds rfl⟩

/-- C2: a present (truthy) resource id is validated before anything
else; on success the call is exactly the call against
`base_endpoint ++ "/" ++ validated_id` with no id, and on validation
failure — or on query-string parse failure — the call returns the
`MalformedInput` error with no request issued; with no id the base
endpoint is used unchanged and a parse failure likewise fails before
any network call. -/
theorem C2_endpoint_composition (method endpoint rid query_params : String)
    (json_data : Option (List (String × PyValue))) (env : Env)
    (hrid : rid ≠ "") :
    (∀ v, _validate_resource_id rid = .ok v →
      _make_api_request method endpoint (some rid) query_params json_data env =
        _make_api_request method (endpoint ++ "/" ++ v) none query_params
          json_data env) ∧
    (∀ m, _validate_resource_id rid = .error m →
      _make_api_request method endpoint (some rid) query_params json_data env =
        (.error (.valueError m), none)) ∧
    (∀ v m, _validate_resource_id rid = .ok v →
      _parse_query_params query_params = .error m →
      _make_api_request method endpoint (some rid) query_params json_data env =
        (.error (.valueError m), none)) ∧
    (∀ m, _parse_query_params query_params = .error m →
      _make_api_request method endpoint none query_params json_data env =
        (.error (.valueError m), none)) := by
  refine ⟨?_, ?_, ?_, ?_⟩
  · intro v hv
    unfold _make_api_request
    dsimp only
    rw [if_neg hrid, hv]
    rfl
  · intro m hm
    unfold _make_api_request
    dsimp only
    rw [if_neg hrid, hm]
    rfl
  · intro v m hv hm
    unfold _make_api_request
    dsimp only
    rw [if_neg hrid, hv]
    show (match _parse_query_params query_params with
      | .error m => (.error (.valueError m), none)
      | .ok parsed_params =>
        match parsed_params.find? (fun kv => collidesWithParam kv.1) with
        | some kv => (.error (.typeError
            ("bugcrowd_request() got multiple values for argument " ++ kv.1)), none)
        | none =>
          bugcrowd_request method (endpoint ++ "/" ++ v) json_data
            (parsed_params.map (fun kv => (kv.1, some kv.2))) env) =
      (.error (.valueError m), none)
    rw [hm]
  · intro m hm
    unfold _make_api_request
    dsimp only
    rw [hm]

/-- C2, witness: the theorem at the spec's own examples — a valid id
composes `/programs/abc-123`, an invalid id and a malformed query both
fail with `MalformedInput` before any network call. -/
theorem C2_endpoint_composition_witness :
    _validate_resource_id "abc-123" = .ok "abc-123" ∧
    _make_api_request "GET" "/programs" (some "abc-123") "" none stubEnv =
      _make_api_request "GET" ("/programs" ++ "/" ++ "abc-123") none "" none stubEnv ∧
    _validate_resource_id "../etc" = .error "Invalid resource ID format: ../etc" ∧
    _make_api_request "GET" "/programs" (some "../etc") "" none stubEnv =
      (.error (.valueError "Invalid resource ID format: ../etc"), none) ∧
    _make_api_request "GET" "/programs" (some "abc-123") "bad key=1" none stubEnv =
      (.error (.valueError ("Malformed query parameters: " ++ "bad key=1")), none) ∧
    _make_api_request "GET" "/programs" none "bad key=1" none stubEnv =
      (.error (.valueError ("Malformed query parameters: " ++ "bad key=1")), none) :=
  ⟨rfl,
   (C2_endpoint_composition "GET" "/programs" "abc-123" "" none stubEnv
     (by decide)).1 "abc-123" rfl,
   rfl,
   (C2_endpoint_composition "GET" "/programs" "../etc" "" none stubEnv
     (by decide)).2.1 "Invalid resource ID format: ../etc" rfl,
   (C2_endpoint_composition "GET" "/programs" "abc-123" "bad key=1" none stubEnv
     (by decide)).2.2.1 "abc-123" ("Malformed query parameters: " ++ "bad key=1")
     rfl rfl,
   (C2_endpoint_composition "GET" "/programs" "x" "bad key=1" none stubEnv
     (by decide)).2.2.2 ("Malformed query parameters: " ++ "bad key=1") rfl⟩

end Bugcrowd
